import Mathlib

set_option maxHeartbeats 1000000

/-!
Shallow embedding of the module-level front end of the compiler:
the cross-module constraint bridge (compiler/constrain/src/module.rs)
and the builtin-effect synthesizer (compiler/load/src/effect_module.rs).

External collaborators (fresh-variable allocation, scope binding, hash
maps, the solved-type vocabulary) are declared here from the spec, since
their sources are not part of the given tree; every function of the two
given files is translated directly from its Rust source.
-/

namespace Roc

/-- Type variables are integer identities allocated by a monotonic counter. -/
abbrev Variable := Nat

/-- Modelled from the spec: FreshVarFactory (roc_types::subs::VarStore, external
collaborator), a monotonic allocator of type-variable identifiers. -/
structure VarStore where
  next : Nat
deriving DecidableEq, Repr

/-- Allocate the next fresh variable and advance the counter. -/
def VarStore.fresh (store : VarStore) : Variable × VarStore :=
  (store.next, ⟨store.next + 1⟩)

/-- Source regions; their structure is irrelevant to the given code,
which only copies them around or uses the zero region. -/
abbrev Region := Nat

/-- The zero region (roc_region::all::Region::zero). -/
def Region.zero : Region := 0

/-- A located value (roc_region::all::Loc). -/
structure Loc (α : Type) where
  region : Region
  value : α
deriving DecidableEq, Repr

/-- Place a value at the zero region (Loc::at_zero). -/
def Loc.at_zero (x : α) : Loc α := ⟨Region.zero, x⟩

/-- Modelled from the spec: module identifiers (roc_module::symbol::ModuleId,
external). Whether a module id belongs to a builtin module is an intrinsic
property of the id; it is carried here as a field. -/
structure ModuleId where
  id : Nat
  builtin : Bool
deriving DecidableEq, Repr

/-- ModuleId::is_builtin. -/
def ModuleId.is_builtin (m : ModuleId) : Bool := m.builtin

/-- Modelled from the spec: symbols (roc_module::symbol::Symbol, external)
pack the owning module id together with an ident id; compared by identity. -/
structure Symbol where
  module : ModuleId
  ident : Nat
deriving DecidableEq, Repr

/-- Symbol::module_id. -/
def Symbol.module_id (s : Symbol) : ModuleId := s.module

/-- Modelled from the spec: tag names (roc_module::ident::TagName, external);
the given code constructs TagName::Private from the effect symbol. -/
inductive TagName where
  | Private (symbol : Symbol)
  | Global (name : String)
deriving DecidableEq, Repr

/-- Modelled from the spec: type problems (roc_types::types::Problem, external).
The given code only constructs Problem::InvalidModule; all remaining variants
are collapsed into Other. -/
inductive Problem where
  | InvalidModule
  | Other (n : Nat)
deriving DecidableEq, Repr

/-- Modelled from the spec: a type alias definition (roc_types::types::Alias,
external). The given code only stores and copies aliases, never inspects
them, so the payload is an abstract identity. -/
structure Alias where
  id : Nat
deriving DecidableEq, Repr

/-- Modelled from the spec: the storage container holding the concrete
type-graph nodes of an exporting module (roc_types::subs::StorageSubs,
external). Only stored and copied by the given code. -/
structure StorageSubs where
  id : Nat
deriving DecidableEq, Repr

/-- Modelled from the spec: hash maps (roc_collections::all::MutMap, external)
as association lists; get finds the most recent binding, insert shadows,
remove drops every binding of the key. -/
structure MutMap (κ : Type) (ν : Type) where
  entries : List (κ × ν)
deriving DecidableEq, Repr

/-- MutMap::default. -/
def MutMap.empty : MutMap κ ν := ⟨[]⟩

/-- MutMap::get. -/
def MutMap.get [DecidableEq κ] (m : MutMap κ ν) (key : κ) : Option ν :=
  (m.entries.find? (fun p => decide (p.1 = key))).map (fun p => p.2)

/-- MutMap::insert: the new binding shadows any older one. -/
def MutMap.insert [DecidableEq κ] (m : MutMap κ ν) (key : κ) (val : ν) : MutMap κ ν :=
  ⟨(key, val) :: m.entries⟩

/-- MutMap::remove. -/
def MutMap.remove [DecidableEq κ] (m : MutMap κ ν) (key : κ) : MutMap κ ν :=
  ⟨m.entries.filter (fun p => decide (p.1 ≠ key))⟩

/-- MutMap::contains_key. -/
def MutMap.contains_key [DecidableEq κ] (m : MutMap κ ν) (key : κ) : Bool :=
  (m.get key).isSome

/-- Insert every entry of the second map into the first, in entry order
(the `for (k, v) in new_aliases` loop of pre_constrain_imports). -/
def MutMap.insertAll [DecidableEq κ] (m : MutMap κ ν) (new : MutMap κ ν) : MutMap κ ν :=
  new.entries.foldl (fun acc p => acc.insert p.1 p.2) m

/-- Modelled from the spec: solved types (roc_types::solved_types::SolvedType,
external vocabulary). The given code matches only the head symbol of Alias and
constructs Erroneous(InvalidModule); the remaining payloads are carried
opaquely and all remaining variants are collapsed into Other. -/
inductive SolvedType where
  | Alias (symbol : Symbol) (type_arguments : List (String × SolvedType))
      (lambda_set_variables : List SolvedType) (actual : SolvedType) (kind : Nat)
  | Erroneous (problem : Problem)
  | Other (n : Nat)

/-- Modelled from the spec: the local type vocabulary (roc_types::types::Type,
external). Only the constructors used by the given code are embedded. -/
inductive Typ where
  | Variable (v : Variable)
  | Function (arguments : List Typ) (closure : Typ) (ret : Typ)
  | Alias (symbol : Symbol) (type_arguments : List (String × Typ))
      (lambda_set_variables : List Typ) (actual : Typ)
  | TagUnion (tags : List (TagName × List Typ)) (ext : Typ)
  | EmptyRec
  | EmptyTagUnion

/-- Modelled from the spec: FreeVars (roc_types::solved_types::FreeVars,
external) — the translation table from an exported solved type's variables to
fresh local variables, split into named, wildcard and unnamed variables. -/
structure FreeVars where
  named_vars : List (String × Variable)
  wildcards : List Variable
  unnamed_vars : List (Nat × Variable)

/-- FreeVars::default: all three tables start empty. -/
def FreeVars.default : FreeVars := ⟨[], [], []⟩

/-- An import: a located symbol paired with its solved type
(constrain/src/module.rs, struct Import). -/
structure Import where
  loc_symbol : Loc Symbol
  solved_type : SolvedType

/-- Modelled from the spec: the external translation
roc_types::solved_types::to_type, which converts a solved type to a local
type while recording every encountered variable in the FreeVars table and
allocating fresh local variables from the store. The given code treats it as
a black box, so it is a parameter of the embedding. -/
def ToTypeFn := SolvedType → FreeVars → VarStore → Typ × FreeVars × VarStore

/-- The non-alias branch of the loop body of constrain_imports: translate the
solved type, record the def type, and append the named, wildcard and unnamed
variables (in that order) to the rigid list. -/
def constrain_import_translate (to_type : ToTypeFn)
    (acc : (List Variable × List (Symbol × Loc Typ)) × VarStore) (imp : Import) :
    (List Variable × List (Symbol × Loc Typ)) × VarStore :=
  let rigid_vars := acc.1.1
  let def_types := acc.1.2
  let var_store := acc.2
  let free_vars := FreeVars.default
  let loc_symbol := imp.loc_symbol
  let res := to_type imp.solved_type free_vars var_store
  let typ := res.1
  let free_vars := res.2.1
  let var_store := res.2.2
  let def_types := def_types ++ [(loc_symbol.value, ⟨loc_symbol.region, typ⟩)]
  let rigid_vars := rigid_vars ++ free_vars.named_vars.map Prod.snd
  let rigid_vars := rigid_vars ++ free_vars.wildcards
  let rigid_vars := rigid_vars ++ free_vars.unnamed_vars.map Prod.snd
  ((rigid_vars, def_types), var_store)

/-- One iteration of the loop in constrain_imports: a self-referential
alias import (head symbol equal to the imported symbol) contributes nothing;
any other import is translated. -/
def constrain_import_step (to_type : ToTypeFn)
    (acc : (List Variable × List (Symbol × Loc Typ)) × VarStore) (imp : Import) :
    (List Variable × List (Symbol × Loc Typ)) × VarStore :=
  match imp.solved_type with
  | SolvedType.Alias symbol _ _ _ _ =>
      if symbol = imp.loc_symbol.value then acc
      else constrain_import_translate to_type acc imp
  | _ => constrain_import_translate to_type acc imp

/-- constrain_imports (constrain/src/module.rs): fold the per-import step over
the import list, producing the rigid-variable list and the def-type list. -/
def constrain_imports (to_type : ToTypeFn) (imports : List Import)
    (var_store : VarStore) :
    (List Variable × List (Symbol × Loc Typ)) × VarStore :=
  imports.foldl (constrain_import_step to_type) (([], []), var_store)

/-- Whether an import is a self-referential alias import: its solved type is
an alias whose head symbol equals the imported symbol itself. -/
def self_referential_alias (imp : Import) : Bool :=
  match imp.solved_type with
  | SolvedType.Alias symbol _ _ _ _ => decide (symbol = imp.loc_symbol.value)
  | _ => false

/-- Per-module export record (constrain/src/module.rs, enum
ExposedModuleTypes): Invalid when the module failed to compile, otherwise the
solved types, exported aliases, stored (symbol, variable) pairs and the
storage container. -/
inductive ExposedModuleTypes where
  | Invalid
  | Valid (solved_types : MutMap Symbol SolvedType) (aliases : MutMap Symbol Alias)
      (stored_vars_by_symbol : List (Symbol × Variable)) (storage_subs : StorageSubs)

/-- SubsByModule = MutMap ModuleId ExposedModuleTypes. -/
abbrev SubsByModule := MutMap ModuleId ExposedModuleTypes

/-- Modelled from the spec: the builtin standard-library table
(roc_builtins::std::StdLib, external): symbol to (solved type, region), plus
the set of builtin type-application symbols. -/
structure StdLib where
  types : MutMap Symbol (SolvedType × Region)
  applies : List Symbol

/-- A fast-path import carrying the exporter's stored variable and storage
container (constrain/src/module.rs, struct HackyImport). -/
structure HackyImport where
  storage_subs : StorageSubs
  loc_symbol : Loc Symbol
  var : Variable

/-- Aggregate result of import resolution (constrain/src/module.rs,
struct ConstrainableImports). -/
structure ConstrainableImports where
  imported_symbols : List Import
  hacky_symbols : List HackyImport
  imported_aliases : MutMap Symbol Alias
  unused_imports : MutMap ModuleId Region

/-- One iteration of the `for symbol in references` loop of
pre_constrain_imports. The table of exposed types is threaded through (the
Rust function holds it by mutable reference); a panic is an `error` result. -/
def pre_constrain_step (home : ModuleId) (stdlib : StdLib)
    (builtin_aliases : List Symbol)
    (acc : ConstrainableImports × SubsByModule) (symbol : Symbol) :
    Except String (ConstrainableImports × SubsByModule) :=
  let st := acc.1
  let exposed_types := acc.2
  let module_id := symbol.module_id
  -- We used this module, so clearly it is not unused!
  let st := { st with unused_imports := st.unused_imports.remove module_id }
  if module_id.is_builtin then
    match stdlib.types.get symbol with
    | some (solved_type, region) =>
        let loc_symbol : Loc Symbol := { value := symbol, region := region }
        Except.ok ({ st with imported_symbols :=
          st.imported_symbols ++ [{ loc_symbol := loc_symbol, solved_type := solved_type }] },
          exposed_types)
    | none =>
        let is_valid_alias :=
          stdlib.applies.contains symbol || builtin_aliases.contains symbol
        if !is_valid_alias then
          Except.error "Could not find symbol in builtin types or builtin aliases"
        else
          Except.ok (st, exposed_types)
  else if module_id ≠ home then
    let region := Region.zero
    let loc_symbol : Loc Symbol := { value := symbol, region := region }
    match exposed_types.get module_id with
    | some (ExposedModuleTypes.Valid solved_types new_aliases stored_vars_by_symbol storage_subs) =>
        match solved_types.get symbol with
        | some solved_type =>
            let st := { st with imported_aliases := st.imported_aliases.insertAll new_aliases }
            let st := { st with imported_symbols :=
              st.imported_symbols ++ [Import.mk loc_symbol solved_type] }
            match stored_vars_by_symbol.find? (fun p => decide (p.1 = loc_symbol.value)) with
            | some pair =>
                Except.ok ({ st with hacky_symbols :=
                  st.hacky_symbols ++ [HackyImport.mk storage_subs loc_symbol pair.2] },
                  exposed_types)
            | none => Except.error "stored_vars_by_symbol lookup unwrap failed"
        | none => Except.ok (st, exposed_types)
    | some ExposedModuleTypes.Invalid =>
        Except.ok ({ st with imported_symbols :=
          st.imported_symbols ++ [{ loc_symbol := loc_symbol,
                                    solved_type := SolvedType.Erroneous Problem.InvalidModule }] },
          exposed_types)
    | none => Except.error "Could not find module in exposed_types"
  else
    -- We already have constraints for our own symbols.
    Except.ok (st, exposed_types)

/-- The `for symbol in references` loop of pre_constrain_imports; a panic in
any iteration aborts the whole call. -/
def pre_constrain_loop (home : ModuleId) (stdlib : StdLib)
    (builtin_aliases : List Symbol) :
    List Symbol → ConstrainableImports × SubsByModule →
    Except String (ConstrainableImports × SubsByModule)
  | [], acc => Except.ok acc
  | symbol :: rest, acc =>
      match pre_constrain_step home stdlib builtin_aliases acc symbol with
      | Except.ok next => pre_constrain_loop home stdlib builtin_aliases rest next
      | Except.error msg => Except.error msg

/-- pre_constrain_imports (constrain/src/module.rs). The reference set is an
iteration order over the referenced symbols; builtin_aliases stands for the
external roc_types::builtin_aliases::aliases() table (only its key set is
consulted). Returns the resolved constrainable imports together with the
threaded exposed-types table, or an error when the Rust code would panic. -/
def pre_constrain_imports (home : ModuleId) (references : List Symbol)
    (imported_modules : MutMap ModuleId Region) (exposed_types : SubsByModule)
    (stdlib : StdLib) (builtin_aliases : List Symbol) :
    Except String (ConstrainableImports × SubsByModule) :=
  pre_constrain_loop home stdlib builtin_aliases references
    ({ imported_symbols := [], hacky_symbols := [],
       imported_aliases := MutMap.empty,
       -- We'll remove these as we encounter them.
       unused_imports := imported_modules }, exposed_types)

/-- Modelled from the spec: recursion annotation of a closure
(roc_can::expr::Recursive, external). -/
inductive Recursive where
  | Recursive
  | TailRecursive
  | NotRecursive
deriving DecidableEq, Repr

/-- Modelled from the spec: how a call was written (roc_module::called_via,
external); the given code only uses CalledVia::Space. -/
inductive CalledVia where
  | Space
  | Other (n : Nat)
deriving DecidableEq, Repr

/-- Modelled from the spec: the variables a type annotation introduces
(roc_can::annotation::IntroducedVariables, external): named type parameters
and anonymous wildcard (lambda-set) variables. -/
structure IntroducedVariables where
  named : List (String × Variable)
  wildcards : List Variable
deriving DecidableEq, Repr

/-- IntroducedVariables::default. -/
def IntroducedVariables.default : IntroducedVariables := ⟨[], []⟩

/-- IntroducedVariables::insert_named. -/
def IntroducedVariables.insert_named (iv : IntroducedVariables) (name : String)
    (v : Variable) : IntroducedVariables :=
  { iv with named := iv.named ++ [(name, v)] }

/-- IntroducedVariables::insert_wildcard. -/
def IntroducedVariables.insert_wildcard (iv : IntroducedVariables)
    (v : Variable) : IntroducedVariables :=
  { iv with wildcards := iv.wildcards ++ [v] }

/-- Modelled from the spec: a def-level type signature record
(roc_can::def::Annotation, external). -/
structure Annot where
  signature : Typ
  introduced_variables : IntroducedVariables
  aliases : List (Symbol × Alias)
  region : Region

/-- Modelled from the spec: a canonicalized annotation as handed to
build_host_exposed_def (roc_can::annotation::Annotation, external). -/
structure CanAnnot where
  typ : Typ
  introduced_variables : IntroducedVariables
  aliases : List (Symbol × Alias)

/-- Modelled from the spec: canonicalized patterns (roc_can::pattern::Pattern,
external vocabulary); only the constructors used by the given code are
embedded, and record destructs (always empty here) are elided. -/
inductive Pattern where
  | Identifier (symbol : Symbol)
  | AppliedTag (whole_var : Variable) (ext_var : Variable) (tag_name : TagName)
      (arguments : List (Variable × Loc Pattern))
  | Underscore
  | RecordDestructure (whole_var : Variable) (ext_var : Variable)
      (destructs : List Nat)

mutual

/-- Modelled from the spec: canonicalized expressions (roc_can::expr::Expr,
external vocabulary); only the constructors used by the given code are
embedded. Call carries the boxed (fn var, callee, closure var, expr var)
tuple, the argument list and the call style. -/
inductive Expr where
  | Var (symbol : Symbol)
  | EmptyRecord
  | Call (fn : Variable × Loc Expr × Variable × Variable)
      (arguments : List (Variable × Loc Expr)) (called_via : CalledVia)
  | Closure (data : ClosureData)
  | Tag (variant_var : Variable) (ext_var : Variable) (name : TagName)
      (arguments : List (Variable × Loc Expr))
  | LetNonRec (d : Def) (cont : Loc Expr) (v : Variable)
  | ForeignCall (foreign_symbol : String) (args : List (Variable × Expr))
      (ret_var : Variable)

/-- Modelled from the spec: the payload of a closure expression
(roc_can::expr::ClosureData, external vocabulary). -/
inductive ClosureData where
  | mk (function_type : Variable) (closure_type : Variable)
      (closure_ext_var : Variable) (return_type : Variable) (name : Symbol)
      (captured_symbols : List (Symbol × Variable)) (recursive : Recursive)
      (arguments : List (Variable × Loc Pattern)) (loc_body : Loc Expr)

/-- Modelled from the spec: a canonicalized definition (roc_can::def::Def,
external vocabulary). -/
inductive Def where
  | mk (loc_pattern : Loc Pattern) (loc_expr : Loc Expr) (expr_var : Variable)
      (pattern_vars : List (Symbol × Variable)) (annot : Option Annot)

end

/-- The name field of a ClosureData. -/
def ClosureData.name : ClosureData → Symbol
  | ⟨_, _, _, _, n, _, _, _, _⟩ => n

/-- The recursive field of a ClosureData. -/
def ClosureData.recursive : ClosureData → Recursive
  | ⟨_, _, _, _, _, _, r, _, _⟩ => r

/-- The captured_symbols field of a ClosureData. -/
def ClosureData.captured_symbols : ClosureData → List (Symbol × Variable)
  | ⟨_, _, _, _, _, c, _, _, _⟩ => c

/-- The arguments field of a ClosureData. -/
def ClosureData.arguments : ClosureData → List (Variable × Loc Pattern)
  | ⟨_, _, _, _, _, _, _, a, _⟩ => a

/-- The loc_body field of a ClosureData. -/
def ClosureData.loc_body : ClosureData → Loc Expr
  | ⟨_, _, _, _, _, _, _, _, b⟩ => b

/-- The loc_pattern field of a Def. -/
def Def.loc_pattern : Def → Loc Pattern
  | ⟨p, _, _, _, _⟩ => p

/-- The loc_expr field of a Def. -/
def Def.loc_expr : Def → Loc Expr
  | ⟨_, e, _, _, _⟩ => e

/-- The expr_var field of a Def. -/
def Def.expr_var : Def → Variable
  | ⟨_, _, v, _, _⟩ => v

/-- The annot field of a Def. -/
def Def.annot : Def → Option Annot
  | ⟨_, _, _, _, a⟩ => a

/-- The tail expression of an expression: follow the continuations of
let-bindings to the expression ultimately evaluated in tail position. -/
def tail_expr : Expr → Expr
  | Expr.LetNonRec _ cont _ => tail_expr cont.value
  | e => e

/-- Type::shallow_dealias (roc_types::types, external): strip alias layers
from the head of a type until a non-alias constructor is exposed. -/
def shallow_dealias : Typ → Typ
  | Typ.Alias _ _ _ actual => shallow_dealias actual
  | t => t

/-- Modelled from the spec: ScopeBinder (roc_can::scope::Scope together with
the ident-id allocation of Env, external collaborators): introducing an
identifier yields a unique fresh symbol of the home module. The given code
unwraps every introduction (the generated names never shadow). -/
structure Scope where
  home : ModuleId
  next_ident : Nat
deriving DecidableEq, Repr

/-- Scope::introduce, specialized to the always-successful use the given code
makes of it. -/
def Scope.introduce (scope : Scope) (name : String) : Symbol × Scope :=
  (⟨scope.home, scope.next_ident⟩, { scope with next_ident := scope.next_ident + 1 })

/-- empty_record_pattern (load/src/effect_module.rs): a record destructure
pattern with fresh whole and ext vars and no destructs. -/
def empty_record_pattern (var_store : VarStore) : Pattern × VarStore :=
  let (whole_var, var_store) := var_store.fresh
  let (ext_var, var_store) := var_store.fresh
  (Pattern.RecordDestructure whole_var ext_var [], var_store)

/-- Pair each captured symbol with a fresh variable, in list order (the
captured_symbols map in wrap_in_effect_thunk). -/
def pair_with_fresh : List Symbol → VarStore → List (Symbol × Variable) × VarStore
  | [], var_store => ([], var_store)
  | s :: rest, var_store =>
      let (v, var_store) := var_store.fresh
      let (tail, var_store) := pair_with_fresh rest var_store
      ((s, v) :: tail, var_store)

/-- wrap_in_effect_thunk (load/src/effect_module.rs): turn a body expression
into the effect tag applied to a thunk closure over that body. -/
def wrap_in_effect_thunk (body : Expr) (effect_tag_name : TagName)
    (closure_name : Symbol) (captured_symbols : List Symbol)
    (var_store : VarStore) : Expr × VarStore :=
  let (captured_symbols, var_store) := pair_with_fresh captured_symbols var_store
  -- \{} -> body
  let (arg_var, var_store) := var_store.fresh
  let (arg_pattern, var_store) := empty_record_pattern var_store
  let arguments := [(arg_var, Loc.at_zero arg_pattern)]
  let (function_type, var_store) := var_store.fresh
  let (closure_type, var_store) := var_store.fresh
  let (closure_ext_var, var_store) := var_store.fresh
  let (return_type, var_store) := var_store.fresh
  let const_closure := Expr.Closure (ClosureData.mk function_type closure_type
    closure_ext_var return_type closure_name captured_symbols
    Recursive.NotRecursive arguments (Loc.at_zero body))
  -- `@Effect \{} -> value`
  let (variant_var, var_store) := var_store.fresh
  let (ext_var, var_store) := var_store.fresh
  let (tag_arg_var, var_store) := var_store.fresh
  (Expr.Tag variant_var ext_var effect_tag_name
    [(tag_arg_var, Loc.at_zero const_closure)], var_store)

/-- force_effect (load/src/effect_module.rs): given an effect expression,
destructure its thunk under the effect tag and call the thunk on the empty
record. -/
def force_effect (effect : Expr) (effect_tag_name : TagName)
    (thunk_symbol : Symbol) (var_store : VarStore) : Expr × VarStore :=
  let (whole_var, var_store) := var_store.fresh
  let (ext_var, var_store) := var_store.fresh
  let (thunk_var, var_store) := var_store.fresh
  let pattern := Pattern.AppliedTag whole_var ext_var effect_tag_name
    [(thunk_var, Loc.at_zero (Pattern.Identifier thunk_symbol))]
  let pattern_vars : List (Symbol × Variable) := []
  let (expr_var, var_store) := var_store.fresh
  let d := Def.mk (Loc.at_zero pattern) (Loc.at_zero effect) expr_var pattern_vars none
  let (ret_var, var_store) := var_store.fresh
  let (fn_var, var_store) := var_store.fresh
  let (closure_var, var_store) := var_store.fresh
  let (call_arg_var, var_store) := var_store.fresh
  let force_thunk_call := Loc.at_zero (Expr.Call
    (fn_var, Loc.at_zero (Expr.Var thunk_symbol), closure_var, ret_var)
    [(call_arg_var, Loc.at_zero Expr.EmptyRecord)] CalledVia.Space)
  let (let_var, var_store) := var_store.fresh
  (Expr.LetNonRec d force_thunk_call let_var, var_store)

/-- build_effect_alias (load/src/effect_module.rs): the alias
`Effect a : [ @Effect (\{} -> a) ]` with a fresh wildcard lambda-set
variable, recorded among the introduced variables. -/
def build_effect_alias (effect_symbol : Symbol) (effect_tag_name : TagName)
    (a_name : String) (a_var : Variable) (a_type : Typ) (var_store : VarStore)
    (introduced_variables : IntroducedVariables) :
    Typ × VarStore × IntroducedVariables :=
  let (closure_var, var_store) := var_store.fresh
  let introduced_variables := introduced_variables.insert_wildcard closure_var
  let actual := Typ.TagUnion
    [(effect_tag_name, [Typ.Function [Typ.EmptyRec] (Typ.Variable closure_var) a_type])]
    Typ.EmptyTagUnion
  (Typ.Alias effect_symbol [(a_name, Typ.Variable a_var)]
    [Typ.Variable closure_var] actual, var_store, introduced_variables)

/-- build_effect_forever_inner_body (load/src/effect_module.rs): the body
`Effect thunk1 = effect; _ = thunk1 {}; Effect thunk2 = forever effect;
thunk2 {}` of the generated inner thunk. -/
def build_effect_forever_inner_body (scope : Scope) (effect_tag_name : TagName)
    (forever_symbol : Symbol) (effect : Symbol) (var_store : VarStore) :
    Expr × Scope × VarStore :=
  let (thunk1_symbol, scope) := scope.introduce "thunk1"
  let (thunk2_symbol, scope) := scope.introduce "thunk2"
  -- Effect thunk1 = effect
  let (whole_var, var_store) := var_store.fresh
  let (ext_var, var_store) := var_store.fresh
  let (thunk_var, var_store) := var_store.fresh
  let pattern := Pattern.AppliedTag whole_var ext_var effect_tag_name
    [(thunk_var, Loc.at_zero (Pattern.Identifier thunk1_symbol))]
  let (def_expr_var, var_store) := var_store.fresh
  let thunk_from_effect := Def.mk (Loc.at_zero pattern)
    (Loc.at_zero (Expr.Var effect)) def_expr_var [] none
  -- thunk1 {}
  let (ret_var, var_store) := var_store.fresh
  let (fn_var, var_store) := var_store.fresh
  let (closure_var, var_store) := var_store.fresh
  let (call_arg_var, var_store) := var_store.fresh
  let force_thunk_call := Loc.at_zero (Expr.Call
    (fn_var, Loc.at_zero (Expr.Var thunk1_symbol), closure_var, ret_var)
    [(call_arg_var, Loc.at_zero Expr.EmptyRecord)] CalledVia.Space)
  -- _ = thunk1 {}
  let (underscore_var, var_store) := var_store.fresh
  let force_thunk1 := Def.mk (Loc.at_zero Pattern.Underscore) force_thunk_call
    underscore_var [] none
  -- recursive call `forever effect`
  let (rec_fn_var, var_store) := var_store.fresh
  let (rec_closure_var, var_store) := var_store.fresh
  let (rec_ret_var, var_store) := var_store.fresh
  let (rec_arg_var, var_store) := var_store.fresh
  let forever_effect := Expr.Call
    (rec_fn_var, Loc.at_zero (Expr.Var forever_symbol), rec_closure_var, rec_ret_var)
    [(rec_arg_var, Loc.at_zero (Expr.Var effect))] CalledVia.Space
  -- Effect thunk2 = forever effect; thunk2 {}
  let (forced, var_store) := force_effect forever_effect effect_tag_name
    thunk2_symbol var_store
  let force_thunk2 := Loc.at_zero forced
  let (inner_let_var, var_store) := var_store.fresh
  let (outer_let_var, var_store) := var_store.fresh
  (Expr.LetNonRec thunk_from_effect
    (Loc.at_zero (Expr.LetNonRec force_thunk1 force_thunk2 inner_let_var))
    outer_let_var, scope, var_store)

/-- build_effect_forever_body (load/src/effect_module.rs): wrap the inner
body in the effect thunk, capturing the effect argument. -/
def build_effect_forever_body (scope : Scope) (effect_tag_name : TagName)
    (forever_symbol : Symbol) (effect : Symbol) (var_store : VarStore) :
    Expr × Scope × VarStore :=
  let (closure_name, scope) := scope.introduce "forever_inner"
  let (inner_body, scope, var_store) := build_effect_forever_inner_body scope
    effect_tag_name forever_symbol effect var_store
  let captured_symbols := [effect]
  let (wrapped, var_store) := wrap_in_effect_thunk inner_body effect_tag_name
    closure_name captured_symbols var_store
  (wrapped, scope, var_store)

/-- build_effect_forever (load/src/effect_module.rs): the full Def of the
forever combinator, with its self-recursive closure and its
`Effect a -> Effect a` signature. -/
def build_effect_forever (scope : Scope) (effect_symbol : Symbol)
    (effect_tag_name : TagName) (var_store : VarStore) :
    (Symbol × Def) × Scope × VarStore :=
  let (forever_symbol, scope) := scope.introduce "forever"
  let (effect, scope) := scope.introduce "effect"
  let (body, scope, var_store) := build_effect_forever_body scope
    effect_tag_name forever_symbol effect var_store
  let (arg_var, var_store) := var_store.fresh
  let arguments := [(arg_var, Loc.at_zero (Pattern.Identifier effect))]
  let (function_var, var_store) := var_store.fresh
  let (function_type, var_store) := var_store.fresh
  let (closure_type, var_store) := var_store.fresh
  let (closure_ext_var, var_store) := var_store.fresh
  let (return_type, var_store) := var_store.fresh
  let after_closure := Expr.Closure (ClosureData.mk function_type closure_type
    closure_ext_var return_type forever_symbol [] Recursive.Recursive
    arguments (Loc.at_zero body))
  let introduced_variables := IntroducedVariables.default
  let (var_a, var_store) := var_store.fresh
  let introduced_variables := introduced_variables.insert_named "a" var_a
  let (effect_a_1, var_store, introduced_variables) := build_effect_alias
    effect_symbol effect_tag_name "a" var_a (Typ.Variable var_a) var_store
    introduced_variables
  -- a second alias instance so the lambda set gets a new fresh variable
  let (effect_a_2, var_store, introduced_variables) := build_effect_alias
    effect_symbol effect_tag_name "a" var_a (Typ.Variable var_a) var_store
    introduced_variables
  let (closure_var, var_store) := var_store.fresh
  let introduced_variables := introduced_variables.insert_wildcard closure_var
  let signature := Typ.Function [effect_a_1] (Typ.Variable closure_var) effect_a_2
  let def_annot := Annot.mk signature introduced_variables [] Region.zero
  let pattern := Pattern.Identifier forever_symbol
  let pattern_vars := [(forever_symbol, function_var)]
  let d := Def.mk (Loc.at_zero pattern) (Loc.at_zero after_closure) function_var
    pattern_vars (some def_annot)
  ((forever_symbol, d), scope, var_store)

/-- The `for i in 0..args.len()` loop of build_host_exposed_def: introduce one
deterministically named argument symbol and one fresh variable per argument,
collecting the argument patterns, the linked foreign-call arguments and the
captured symbols, in push order. -/
def host_closure_args (ident : String) :
    Nat → Nat → Scope → VarStore →
    (List (Variable × Loc Pattern) × List (Variable × Expr) ×
      List (Symbol × Variable)) × Scope × VarStore
  | _, 0, scope, var_store => (([], [], []), scope, var_store)
  | i, n + 1, scope, var_store =>
      let name := "closure_arg_" ++ ident ++ "_" ++ toString i
      let (arg_symbol, scope) := scope.introduce name
      let (arg_var, var_store) := var_store.fresh
      let (rest, scope, var_store) := host_closure_args ident (i + 1) n scope var_store
      (((arg_var, Loc.at_zero (Pattern.Identifier arg_symbol)) :: rest.1,
        (arg_var, Expr.Var arg_symbol) :: rest.2.1,
        (arg_symbol, arg_var) :: rest.2.2), scope, var_store)

/-- build_host_exposed_def (load/src/effect_module.rs): synthesize the Def of
a host-exposed effect. An annotation whose shallow-dealiased type is a
function of arity N yields a closure over N argument patterns whose body is
the effect tag around a thunk calling the foreign symbol roc_fx_ident with
the N arguments; any other annotation yields the bare effect tag around a
thunk calling the foreign symbol with no arguments. -/
def build_host_exposed_def (scope : Scope) (symbol : Symbol) (ident : String)
    (effect_tag_name : TagName) (var_store : VarStore) (annot : CanAnnot) :
    Def × Scope × VarStore :=
  let (expr_var, var_store) := var_store.fresh
  let pattern := Pattern.Identifier symbol
  let pattern_vars := [(symbol, expr_var)]
  match shallow_dealias annot.typ with
  | Typ.Function args _ _ =>
      let (collected, scope, var_store) :=
        host_closure_args ident 0 args.length scope var_store
      let arguments := collected.1
      let linked_symbol_arguments := collected.2.1
      let captured_symbols := collected.2.2
      let foreign_symbol_name := "roc_fx_" ++ ident
      let (ret_var, var_store) := var_store.fresh
      let low_level_call := Expr.ForeignCall foreign_symbol_name
        linked_symbol_arguments ret_var
      let (effect_closure_symbol, scope) :=
        scope.introduce ("effect_closure_" ++ ident)
      let (function_type, var_store) := var_store.fresh
      let (closure_type, var_store) := var_store.fresh
      let (closure_ext_var, var_store) := var_store.fresh
      let (return_type, var_store) := var_store.fresh
      let (thunk_arg_var, var_store) := var_store.fresh
      let (thunk_arg_pattern, var_store) := empty_record_pattern var_store
      let effect_closure := Expr.Closure (ClosureData.mk function_type
        closure_type closure_ext_var return_type effect_closure_symbol
        captured_symbols Recursive.NotRecursive
        [(thunk_arg_var, Loc.at_zero thunk_arg_pattern)]
        (Loc.at_zero low_level_call))
      let (variant_var, var_store) := var_store.fresh
      let (ext_var, var_store) := var_store.fresh
      let (tag_arg_var, var_store) := var_store.fresh
      let body := Expr.Tag variant_var ext_var effect_tag_name
        [(tag_arg_var, Loc.at_zero effect_closure)]
      let (outer_function_type, var_store) := var_store.fresh
      let (outer_closure_type, var_store) := var_store.fresh
      let (outer_closure_ext_var, var_store) := var_store.fresh
      let (outer_return_type, var_store) := var_store.fresh
      let def_body := Expr.Closure (ClosureData.mk outer_function_type
        outer_closure_type outer_closure_ext_var outer_return_type symbol []
        Recursive.NotRecursive arguments (Loc.at_zero body))
      let def_annot := Annot.mk annot.typ annot.introduced_variables
        annot.aliases Region.zero
      (Def.mk (Loc.at_zero pattern) (Loc.at_zero def_body) expr_var
        pattern_vars (some def_annot), scope, var_store)
  | _ =>
      -- not a function: the argument collections stay empty
      let foreign_symbol_name := "roc_fx_" ++ ident
      let (ret_var, var_store) := var_store.fresh
      let low_level_call := Expr.ForeignCall foreign_symbol_name [] ret_var
      let (effect_closure_symbol, scope) :=
        scope.introduce ("effect_closure_" ++ ident)
      let (whole_var, var_store) := var_store.fresh
      let (rec_ext_var, var_store) := var_store.fresh
      let thunk_arg_pattern := Pattern.RecordDestructure whole_var rec_ext_var []
      let (function_type, var_store) := var_store.fresh
      let (closure_type, var_store) := var_store.fresh
      let (closure_ext_var, var_store) := var_store.fresh
      let (return_type, var_store) := var_store.fresh
      let (thunk_arg_var, var_store) := var_store.fresh
      let effect_closure := Expr.Closure (ClosureData.mk function_type
        closure_type closure_ext_var return_type effect_closure_symbol []
        Recursive.NotRecursive [(thunk_arg_var, Loc.at_zero thunk_arg_pattern)]
        (Loc.at_zero low_level_call))
      let (variant_var, var_store) := var_store.fresh
      let (ext_var, var_store) := var_store.fresh
      let (tag_arg_var, var_store) := var_store.fresh
      let def_body := Expr.Tag variant_var ext_var effect_tag_name
        [(tag_arg_var, Loc.at_zero effect_closure)]
      let def_annot := Annot.mk annot.typ annot.introduced_variables
        annot.aliases Region.zero
      (Def.mk (Loc.at_zero pattern) (Loc.at_zero def_body) expr_var
        pattern_vars (some def_annot), scope, var_store)

/-! Theorems. -/

/-- A non-self-referential import always takes the translate branch of the
loop body. -/
theorem constrain_import_step_eq_translate (to_type : ToTypeFn)
    (acc : (List Variable × List (Symbol × Loc Typ)) × VarStore) (imp : Import)
    (h : self_referential_alias imp = false) :
    constrain_import_step to_type acc imp = constrain_import_translate to_type acc imp := by
  unfold constrain_import_step
  cases himp : imp.solved_type with
  | Alias symbol a b c d =>
      simp only [self_referential_alias, himp, decide_eq_false_iff_not] at h
      simp [h]
  | Erroneous p => rfl
  | Other n => rfl

/-- A self-referential alias import takes the skip branch of the loop body. -/
theorem constrain_import_step_self_alias (to_type : ToTypeFn)
    (acc : (List Variable × List (Symbol × Loc Typ)) × VarStore) (imp : Import)
    (h : self_referential_alias imp = true) :
    constrain_import_step to_type acc imp = acc := by
  unfold constrain_import_step
  cases himp : imp.solved_type with
  | Alias symbol a b c d =>
      simp only [self_referential_alias, himp, decide_eq_true_eq] at h
      simp [h]
  | Erroneous p => simp [self_referential_alias, himp] at h
  | Other n => simp [self_referential_alias, himp] at h

/-- Claim C2: a non-self-referential import whose solved type translates with
N named, M wildcard and K unnamed free variables contributes exactly those
N+M+K variables to the rigid list — named first, then wildcards, then unnamed
— and exactly one def-type entry, under its own symbol and region. -/
theorem constrain_imports_rigid_contribution (to_type : ToTypeFn)
    (imports : List Import) (imp : Import) (vs : VarStore)
    (h : self_referential_alias imp = false)
    (rv : List Variable) (dt : List (Symbol × Loc Typ)) (vs1 : VarStore)
    (hprev : constrain_imports to_type imports vs = ((rv, dt), vs1))
    (t : Typ) (fv : FreeVars) (vs2 : VarStore)
    (htt : to_type imp.solved_type FreeVars.default vs1 = (t, fv, vs2)) :
    constrain_imports to_type (imports ++ [imp]) vs =
      ((rv ++ (fv.named_vars.map Prod.snd ++ fv.wildcards ++ fv.unnamed_vars.map Prod.snd),
        dt ++ [(imp.loc_symbol.value, ⟨imp.loc_symbol.region, t⟩)]), vs2)
    ∧ (rv ++ (fv.named_vars.map Prod.snd ++ fv.wildcards ++
        fv.unnamed_vars.map Prod.snd)).length =
        rv.length + (fv.named_vars.length + fv.wildcards.length +
          fv.unnamed_vars.length) := by
  constructor
  · unfold constrain_imports at hprev ⊢
    rw [List.foldl_append, hprev, List.foldl_cons, List.foldl_nil,
      constrain_import_step_eq_translate to_type _ imp h]
    unfold constrain_import_translate
    simp only [htt, List.append_assoc]
  · simp [Nat.add_assoc]

/-- Claim C6: an import whose solved type is an alias headed by the imported
symbol itself contributes nothing: appending it to the import list leaves the
rigid variables, the def types and the variable store unchanged. -/
theorem constrain_imports_self_alias_skip (to_type : ToTypeFn)
    (imports : List Import) (imp : Import) (vs : VarStore)
    (head : Symbol) (ta : List (String × SolvedType)) (ls : List SolvedType)
    (actual : SolvedType) (kind : Nat)
    (halias : imp.solved_type = SolvedType.Alias head ta ls actual kind)
    (hself : head = imp.loc_symbol.value) :
    constrain_imports to_type (imports ++ [imp]) vs =
      constrain_imports to_type imports vs := by
  unfold constrain_imports
  rw [List.foldl_append, List.foldl_cons, List.foldl_nil,
    constrain_import_step_self_alias]
  simp [self_referential_alias, halias, hself]

/-- A fixture module id (not builtin). -/
def m0 : ModuleId := ⟨0, false⟩

/-- A fixture symbol of module m0. -/
def s0 : Symbol := ⟨m0, 0⟩

/-- A fixture translation that yields one named, one wildcard and one unnamed
variable, without touching the store. -/
def tt0 : ToTypeFn := fun _ _ vs => (Typ.EmptyRec, ⟨[("a", 100)], [101], [(0, 102)]⟩, vs)

/-- A non-self-referential fixture import. -/
def imp0 : Import := ⟨Loc.at_zero s0, SolvedType.Other 0⟩

/-- A self-referential fixture import: an alias headed by its own symbol. -/
def imp_self : Import :=
  ⟨Loc.at_zero s0, SolvedType.Alias s0 [] [] (SolvedType.Other 0) 0⟩

/-- Witness for claim C2 at a concrete import and translation. -/
theorem constrain_imports_rigid_contribution_witness :
    constrain_imports tt0 ([] ++ [imp0]) ⟨0⟩ =
      (([] ++ ((FreeVars.mk [("a", 100)] [101] [(0, 102)]).named_vars.map Prod.snd ++
          (FreeVars.mk [("a", 100)] [101] [(0, 102)]).wildcards ++
          (FreeVars.mk [("a", 100)] [101] [(0, 102)]).unnamed_vars.map Prod.snd),
        [] ++ [(imp0.loc_symbol.value, ⟨imp0.loc_symbol.region, Typ.EmptyRec⟩)]), ⟨0⟩)
    ∧ ([] ++ ((FreeVars.mk [("a", 100)] [101] [(0, 102)]).named_vars.map Prod.snd ++
        (FreeVars.mk [("a", 100)] [101] [(0, 102)]).wildcards ++
        (FreeVars.mk [("a", 100)] [101] [(0, 102)]).unnamed_vars.map Prod.snd)).length =
        List.length ([] : List Variable) +
          ((FreeVars.mk [("a", 100)] [101] [(0, 102)]).named_vars.length +
          (FreeVars.mk [("a", 100)] [101] [(0, 102)]).wildcards.length +
          (FreeVars.mk [("a", 100)] [101] [(0, 102)]).unnamed_vars.length) :=
  constrain_imports_rigid_contribution tt0 [] imp0 ⟨0⟩ rfl [] [] ⟨0⟩ rfl
    Typ.EmptyRec (FreeVars.mk [("a", 100)] [101] [(0, 102)]) ⟨0⟩ rfl

/-- Witness for claim C6 at a concrete self-referential alias import. -/
theorem constrain_imports_self_alias_skip_witness :
    constrain_imports tt0 ([imp0] ++ [imp_self]) ⟨0⟩ =
      constrain_imports tt0 [imp0] ⟨0⟩ :=
  constrain_imports_self_alias_skip tt0 [imp0] imp_self ⟨0⟩ s0 [] []
    (SolvedType.Other 0) 0 rfl rfl

/-- General helper: the shape of one loop iteration when the referenced
symbol resolves through a Valid entry, has a recorded solved type, and its
stored variable is found. -/
theorem pre_constrain_step_valid_found (home : ModuleId) (stdlib : StdLib)
    (ba : List Symbol) (st : ConstrainableImports) (ets : SubsByModule)
    (symbol : Symbol) (sts : MutMap Symbol SolvedType) (als : MutMap Symbol Alias)
    (sv : List (Symbol × Variable)) (ss : StorageSubs) (t : SolvedType)
    (p : Symbol × Variable)
    (hb : symbol.module_id.is_builtin = false) (hh : symbol.module_id ≠ home)
    (hval : ets.get symbol.module_id = some (ExposedModuleTypes.Valid sts als sv ss))
    (hst : sts.get symbol = some t)
    (hfind : sv.find? (fun q => decide (q.1 = symbol)) = some p) :
    pre_constrain_step home stdlib ba (st, ets) symbol =
      Except.ok ({ st with
        unused_imports := st.unused_imports.remove symbol.module_id,
        imported_aliases := st.imported_aliases.insertAll als,
        imported_symbols := st.imported_symbols ++ [Import.mk ⟨Region.zero, symbol⟩ t],
        hacky_symbols := st.hacky_symbols ++
          [HackyImport.mk ss ⟨Region.zero, symbol⟩ p.2] }, ets) := by
  simp [pre_constrain_step, hb, hh, hval, hst, hfind]

/-- General helper: the shape of one loop iteration when the referenced
symbol resolves through a Valid entry but has no recorded solved type:
nothing but the unused-import bookkeeping changes. -/
theorem pre_constrain_step_valid_skipped (home : ModuleId) (stdlib : StdLib)
    (ba : List Symbol) (st : ConstrainableImports) (ets : SubsByModule)
    (symbol : Symbol) (sts : MutMap Symbol SolvedType) (als : MutMap Symbol Alias)
    (sv : List (Symbol × Variable)) (ss : StorageSubs)
    (hb : symbol.module_id.is_builtin = false) (hh : symbol.module_id ≠ home)
    (hval : ets.get symbol.module_id = some (ExposedModuleTypes.Valid sts als sv ss))
    (hst : sts.get symbol = none) :
    pre_constrain_step home stdlib ba (st, ets) symbol =
      Except.ok ({ st with
        unused_imports := st.unused_imports.remove symbol.module_id }, ets) := by
  simp [pre_constrain_step, hb, hh, hval, hst]

/-- Claim C1: a referenced symbol whose owning module has an Invalid entry is
handled without a panic; exactly one import carrying the invalid-module
error type is pushed for it, and no hacky import. -/
theorem pre_constrain_step_invalid_module (home : ModuleId) (stdlib : StdLib)
    (ba : List Symbol) (st : ConstrainableImports) (ets : SubsByModule)
    (symbol : Symbol)
    (hb : symbol.module_id.is_builtin = false) (hh : symbol.module_id ≠ home)
    (hinv : ets.get symbol.module_id = some ExposedModuleTypes.Invalid) :
    pre_constrain_step home stdlib ba (st, ets) symbol =
      Except.ok ({ st with
        unused_imports := st.unused_imports.remove symbol.module_id,
        imported_symbols := st.imported_symbols ++
          [Import.mk ⟨Region.zero, symbol⟩
            (SolvedType.Erroneous Problem.InvalidModule)] }, ets) := by
  simp [pre_constrain_step, hb, hh, hinv]

/-- Claim C5: for a builtin-module symbol, the loop iteration pushes exactly
one import with the builtin table's solved type and region when the table has
the symbol; produces no import and no panic when the table lacks it but the
applies set or the builtin-aliases set has it; and panics exactly when all
three lack it. -/
theorem pre_constrain_step_builtin (home : ModuleId) (stdlib : StdLib)
    (ba : List Symbol) (st : ConstrainableImports) (ets : SubsByModule)
    (symbol : Symbol) (hb : symbol.module_id.is_builtin = true) :
    (∀ solved_type region,
      stdlib.types.get symbol = some (solved_type, region) →
      pre_constrain_step home stdlib ba (st, ets) symbol =
        Except.ok ({ st with
          unused_imports := st.unused_imports.remove symbol.module_id,
          imported_symbols := st.imported_symbols ++
            [Import.mk ⟨region, symbol⟩ solved_type] }, ets))
    ∧ (stdlib.types.get symbol = none →
        (stdlib.applies.contains symbol || ba.contains symbol) = true →
        pre_constrain_step home stdlib ba (st, ets) symbol =
          Except.ok ({ st with
            unused_imports := st.unused_imports.remove symbol.module_id }, ets))
    ∧ (stdlib.types.get symbol = none →
        (stdlib.applies.contains symbol || ba.contains symbol) = false →
        ∃ msg, pre_constrain_step home stdlib ba (st, ets) symbol =
          Except.error msg) := by
  refine ⟨?_, ?_, ?_⟩
  · intro solved_type region hget
    simp [pre_constrain_step, hb, hget]
  · intro hget hvalid
    have hmem : symbol ∈ stdlib.applies ∨ symbol ∈ ba := by simpa using hvalid
    simp [pre_constrain_step, hb, hget]
    tauto
  · intro hget hvalid
    have hmem : ¬ symbol ∈ stdlib.applies ∧ ¬ symbol ∈ ba := by simpa using hvalid
    exact ⟨"Could not find symbol in builtin types or builtin aliases",
      by simp [pre_constrain_step, hb, hget, hmem.1, hmem.2]⟩

/-- Claim C10: under the precondition that every symbol with a recorded
solved type also has a stored-variable pair, the unwrap on the stored-var
lookup cannot fail and the hacky import carries exactly the stored variable;
without a stored pair for a symbol that has a solved type, the call panics. -/
theorem pre_constrain_step_stored_vars (home : ModuleId) (stdlib : StdLib)
    (ba : List Symbol) (st : ConstrainableImports) (ets : SubsByModule)
    (symbol : Symbol) (sts : MutMap Symbol SolvedType) (als : MutMap Symbol Alias)
    (sv : List (Symbol × Variable)) (ss : StorageSubs) (t : SolvedType)
    (hb : symbol.module_id.is_builtin = false) (hh : symbol.module_id ≠ home)
    (hval : ets.get symbol.module_id = some (ExposedModuleTypes.Valid sts als sv ss))
    (hst : sts.get symbol = some t) :
    ((∀ s ty, sts.get s = some ty → ∃ v, (s, v) ∈ sv) →
      ∃ p : Symbol × Variable,
        sv.find? (fun q => decide (q.1 = symbol)) = some p ∧ p.1 = symbol ∧ p ∈ sv ∧
        pre_constrain_step home stdlib ba (st, ets) symbol =
          Except.ok ({ st with
            unused_imports := st.unused_imports.remove symbol.module_id,
            imported_aliases := st.imported_aliases.insertAll als,
            imported_symbols := st.imported_symbols ++
              [Import.mk ⟨Region.zero, symbol⟩ t],
            hacky_symbols := st.hacky_symbols ++
              [HackyImport.mk ss ⟨Region.zero, symbol⟩ p.2] }, ets))
    ∧ (sv.find? (fun q => decide (q.1 = symbol)) = none →
        ∃ msg, pre_constrain_step home stdlib ba (st, ets) symbol =
          Except.error msg) := by
  constructor
  · intro hpre
    obtain ⟨v, hv⟩ := hpre symbol t hst
    cases hfind : sv.find? (fun q => decide (q.1 = symbol)) with
    | none =>
        exfalso
        have := List.find?_eq_none.mp hfind (symbol, v) hv
        simp at this
    | some p =>
        have hp1 : p.1 = symbol := by
          have := List.find?_some hfind
          simpa using this
        exact ⟨p, rfl, hp1, List.mem_of_find?_eq_some hfind,
          pre_constrain_step_valid_found home stdlib ba st ets symbol sts als
            sv ss t p hb hh hval hst hfind⟩
  · intro hfind
    exact ⟨"stored_vars_by_symbol lookup unwrap failed",
      by simp [pre_constrain_step, hb, hh, hval, hst, hfind]⟩

/-- A fixture home module id. -/
def home0 : ModuleId := ⟨1, false⟩

/-- A fixture exporting module id (not builtin, not home). -/
def m2 : ModuleId := ⟨2, false⟩

/-- A second fixture exporting module id. -/
def m3 : ModuleId := ⟨3, false⟩

/-- A fixture symbol owned by m2. -/
def s2 : Symbol := ⟨m2, 0⟩

/-- A fixture symbol owned by m3. -/
def s3 : Symbol := ⟨m3, 0⟩

/-- A fixture builtin module id. -/
def mb : ModuleId := ⟨0, true⟩

/-- A fixture symbol owned by the builtin module. -/
def sb : Symbol := ⟨mb, 0⟩

/-- An empty builtin table fixture. -/
def stdlib0 : StdLib := ⟨MutMap.empty, []⟩

/-- A builtin table fixture binding sb. -/
def stdlib_b : StdLib := ⟨⟨[(sb, (SolvedType.Other 5, 7))]⟩, []⟩

/-- An empty loop-state fixture. -/
def ci0 : ConstrainableImports := ⟨[], [], MutMap.empty, MutMap.empty⟩

/-- An exposed-types fixture where m2 is Invalid. -/
def ets_invalid : SubsByModule := ⟨[(m2, ExposedModuleTypes.Invalid)]⟩

/-- An exposed-types fixture where m2 is Valid, exports s2 with a solved type
and a stored variable, and exports one alias. -/
def ets_valid : SubsByModule :=
  ⟨[(m2, ExposedModuleTypes.Valid ⟨[(s2, SolvedType.Other 3)]⟩
      ⟨[(sb, Alias.mk 21)]⟩ [(s2, 9)] ⟨0⟩)]⟩

/-- Witness for claim C1 at a concrete Invalid entry. -/
theorem pre_constrain_step_invalid_module_witness :
    pre_constrain_step home0 stdlib0 [] (ci0, ets_invalid) s2 =
      Except.ok ({ ci0 with
        unused_imports := ci0.unused_imports.remove s2.module_id,
        imported_symbols := ci0.imported_symbols ++
          [Import.mk ⟨Region.zero, s2⟩
            (SolvedType.Erroneous Problem.InvalidModule)] }, ets_invalid) :=
  pre_constrain_step_invalid_module home0 stdlib0 [] ci0 ets_invalid s2
    rfl (by decide) rfl

/-- Witness for claim C5 at a concrete builtin-table entry. -/
theorem pre_constrain_step_builtin_witness :
    pre_constrain_step home0 stdlib_b [] (ci0, MutMap.empty) sb =
      Except.ok ({ ci0 with
        unused_imports := ci0.unused_imports.remove sb.module_id,
        imported_symbols := ci0.imported_symbols ++
          [Import.mk ⟨7, sb⟩ (SolvedType.Other 5)] }, MutMap.empty) :=
  (pre_constrain_step_builtin home0 stdlib_b [] ci0 MutMap.empty sb rfl).1
    (SolvedType.Other 5) 7 rfl

/-- Witness for claim C10 at a concrete Valid entry satisfying the
precondition. -/
theorem pre_constrain_step_stored_vars_witness :
    ∃ p : Symbol × Variable,
      [(s2, 9)].find? (fun q => decide (q.1 = s2)) = some p ∧ p.1 = s2 ∧
        p ∈ [(s2, 9)] ∧
      pre_constrain_step home0 stdlib0 [] (ci0, ets_valid) s2 =
        Except.ok ({ ci0 with
          unused_imports := ci0.unused_imports.remove s2.module_id,
          imported_aliases := ci0.imported_aliases.insertAll ⟨[(sb, Alias.mk 21)]⟩,
          imported_symbols := ci0.imported_symbols ++
            [Import.mk ⟨Region.zero, s2⟩ (SolvedType.Other 3)],
          hacky_symbols := ci0.hacky_symbols ++
            [HackyImport.mk ⟨0⟩ ⟨Region.zero, s2⟩ p.2] }, ets_valid) :=
  (pre_constrain_step_stored_vars home0 stdlib0 [] ci0 ets_valid s2
      ⟨[(s2, SolvedType.Other 3)]⟩ ⟨[(sb, Alias.mk 21)]⟩ [(s2, 9)] ⟨0⟩
      (SolvedType.Other 3) rfl (by decide) rfl rfl).1
    (by
      intro s ty h
      by_cases hs : s2 = s
      · subst hs; exact ⟨9, by simp⟩
      · simp [MutMap.get, List.find?_cons, hs] at h)

/-- A successful loop iteration returns the exposed-types table unchanged. -/
theorem pre_constrain_step_ets_unchanged (home : ModuleId) (stdlib : StdLib)
    (ba : List Symbol) (st : ConstrainableImports) (ets : SubsByModule)
    (symbol : Symbol) (st' : ConstrainableImports) (ets' : SubsByModule)
    (h : pre_constrain_step home stdlib ba (st, ets) symbol =
      Except.ok (st', ets')) : ets' = ets := by
  simp only [pre_constrain_step] at h
  repeat' split at h
  all_goals simp_all

/-- A successful loop iteration removes exactly the symbol's module from the
unused-imports working set and touches it in no other way. -/
theorem pre_constrain_step_unused (home : ModuleId) (stdlib : StdLib)
    (ba : List Symbol) (st : ConstrainableImports) (ets : SubsByModule)
    (symbol : Symbol) (st' : ConstrainableImports) (ets' : SubsByModule)
    (h : pre_constrain_step home stdlib ba (st, ets) symbol =
      Except.ok (st', ets')) :
    st'.unused_imports = st.unused_imports.remove symbol.module_id := by
  simp only [pre_constrain_step] at h
  repeat' split at h
  all_goals
    first
      | exact Except.noConfusion h
      | (rw [Except.ok.injEq] at h
         injection h with h1 h2
         subst h1
         rfl)

/-- A successful loop run returns the exposed-types table unchanged. -/
theorem pre_constrain_loop_ets_unchanged (home : ModuleId) (stdlib : StdLib)
    (ba : List Symbol) :
    ∀ (refs : List Symbol) (st : ConstrainableImports) (ets : SubsByModule)
      (st' : ConstrainableImports) (ets' : SubsByModule),
      pre_constrain_loop home stdlib ba refs (st, ets) = Except.ok (st', ets') →
      ets' = ets := by
  intro refs
  induction refs with
  | nil =>
      intro st ets st' ets' h
      simp only [pre_constrain_loop] at h
      cases h
      rfl
  | cons s rest ih =>
      intro st ets st' ets' h
      simp only [pre_constrain_loop] at h
      cases hstep : pre_constrain_step home stdlib ba (st, ets) s with
      | ok next =>
          rw [hstep] at h
          obtain ⟨st1, ets1⟩ := next
          have h1 := pre_constrain_step_ets_unchanged home stdlib ba st ets s
            st1 ets1 hstep
          have h2 := ih st1 ets1 st' ets' h
          rw [h2, h1]
      | error msg => rw [hstep] at h; cases h

/-- A successful loop run leaves the unused-imports working set at the fold
of per-symbol module removals over the reference order. -/
theorem pre_constrain_loop_unused (home : ModuleId) (stdlib : StdLib)
    (ba : List Symbol) :
    ∀ (refs : List Symbol) (st : ConstrainableImports) (ets : SubsByModule)
      (st' : ConstrainableImports) (ets' : SubsByModule),
      pre_constrain_loop home stdlib ba refs (st, ets) = Except.ok (st', ets') →
      st'.unused_imports =
        refs.foldl (fun m s => m.remove s.module_id) st.unused_imports := by
  intro refs
  induction refs with
  | nil =>
      intro st ets st' ets' h
      simp only [pre_constrain_loop] at h
      cases h
      rfl
  | cons s rest ih =>
      intro st ets st' ets' h
      simp only [pre_constrain_loop] at h
      cases hstep : pre_constrain_step home stdlib ba (st, ets) s with
      | ok next =>
          rw [hstep] at h
          obtain ⟨st1, ets1⟩ := next
          have h1 := pre_constrain_step_unused home stdlib ba st ets s
            st1 ets1 hstep
          have h2 := ih st1 ets1 st' ets' h
          rw [h2, h1, List.foldl_cons]
      | error msg => rw [hstep] at h; cases h

/-- Claim C9: a non-panicking pre_constrain_imports call hands back the
exposed-types table exactly as it received it — the function only reads
entries, so every module's entry (or absence of one) is preserved. -/
theorem pre_constrain_imports_reads_only (home : ModuleId)
    (references : List Symbol) (imported_modules : MutMap ModuleId Region)
    (exposed_types : SubsByModule) (stdlib : StdLib) (ba : List Symbol)
    (res : ConstrainableImports) (ets' : SubsByModule)
    (h : pre_constrain_imports home references imported_modules exposed_types
      stdlib ba = Except.ok (res, ets')) : ets' = exposed_types :=
  pre_constrain_loop_ets_unchanged home stdlib ba references _ exposed_types
    res ets' h

/-- Removing a key yields a map with no binding for that key. -/
theorem MutMap.get_remove_self [DecidableEq κ] (m : MutMap κ ν) (k : κ) :
    (m.remove k).get k = none := by
  obtain ⟨l⟩ := m
  have : (l.filter (fun p => decide (p.1 ≠ k))).find?
      (fun p => decide (p.1 = k)) = none := by
    rw [List.find?_eq_none]
    intro x hx
    simp only [List.mem_filter, decide_eq_true_eq] at hx
    simp [hx.2]
  simp [MutMap.remove, MutMap.get, this]

/-- Filtering one key out of an association list does not change the first
binding found for any other key. -/
theorem find_filter_ne_key [DecidableEq κ] (l : List (κ × ν)) (k k' : κ)
    (h : k' ≠ k) :
    (l.filter (fun p => decide (p.1 ≠ k))).find? (fun p => decide (p.1 = k')) =
      l.find? (fun p => decide (p.1 = k')) := by
  induction l with
  | nil => rfl
  | cons p rest ih =>
      by_cases hp : p.1 = k
      · rw [List.filter_cons_of_neg (by simp [hp]),
          List.find?_cons_of_neg _ (by simp [hp, Ne.symm h])]
        exact ih
      · rw [List.filter_cons_of_pos (by simp [hp])]
        by_cases hp' : p.1 = k'
        · rw [List.find?_cons_of_pos _ (by simp [hp']),
            List.find?_cons_of_pos _ (by simp [hp'])]
        · rw [List.find?_cons_of_neg _ (by simp [hp']),
            List.find?_cons_of_neg _ (by simp [hp'])]
          exact ih

/-- Removing one key leaves every other key's binding unchanged. -/
theorem MutMap.get_remove_ne [DecidableEq κ] (m : MutMap κ ν) (k k' : κ)
    (h : k' ≠ k) : (m.remove k).get k' = m.get k' := by
  obtain ⟨l⟩ := m
  simp only [MutMap.remove, MutMap.get]
  rw [find_filter_ne_key l k k' h]

/-- A key with no binding stays unbound under any fold of removals. -/
theorem fold_remove_preserves_none (refs : List Symbol)
    (m : MutMap ModuleId Region) (mid : ModuleId) (h : m.get mid = none) :
    (refs.foldl (fun m s => m.remove s.module_id) m).get mid = none := by
  induction refs generalizing m with
  | nil => exact h
  | cons s rest ih =>
      rw [List.foldl_cons]
      apply ih
      by_cases hs : mid = s.module_id
      · rw [hs]; exact MutMap.get_remove_self m s.module_id
      · rw [MutMap.get_remove_ne m s.module_id mid hs]; exact h

/-- After folding removals over a symbol list, a module owning one of the
symbols has no binding left. -/
theorem fold_remove_referenced (refs : List Symbol) (m : MutMap ModuleId Region)
    (mid : ModuleId) (h : ∃ s ∈ refs, s.module_id = mid) :
    (refs.foldl (fun m s => m.remove s.module_id) m).get mid = none := by
  induction refs generalizing m with
  | nil => obtain ⟨s, hs, _⟩ := h; cases hs
  | cons s rest ih =>
      rw [List.foldl_cons]
      obtain ⟨x, hx, hmid⟩ := h
      rcases List.mem_cons.mp hx with hx | hx
      · subst hx
        apply fold_remove_preserves_none
        rw [← hmid]
        exact MutMap.get_remove_self m x.module_id
      · exact ih (m.remove s.module_id) ⟨x, hx, hmid⟩

/-- Folding removals over a symbol list owning none of its modules leaves a
module's binding unchanged. -/
theorem fold_remove_unreferenced (refs : List Symbol)
    (m : MutMap ModuleId Region) (mid : ModuleId)
    (h : ∀ s ∈ refs, s.module_id ≠ mid) :
    (refs.foldl (fun m s => m.remove s.module_id) m).get mid = m.get mid := by
  induction refs generalizing m with
  | nil => rfl
  | cons s rest ih =>
      rw [List.foldl_cons]
      rw [ih (m.remove s.module_id) (fun x hx => h x (List.mem_cons_of_mem s hx))]
      exact MutMap.get_remove_ne m s.module_id mid
        (fun hh => h s (List.mem_cons_self s rest) hh.symm)

/-- Claim C7: after a non-panicking pre_constrain_imports call, no module
owning a referenced symbol is still in the unused-imports result, and every
(module, region) pair of the candidate set whose module owns no referenced
symbol is still present. -/
theorem pre_constrain_imports_unused (home : ModuleId)
    (references : List Symbol) (imported_modules : MutMap ModuleId Region)
    (exposed_types : SubsByModule) (stdlib : StdLib) (ba : List Symbol)
    (res : ConstrainableImports) (ets' : SubsByModule)
    (h : pre_constrain_imports home references imported_modules exposed_types
      stdlib ba = Except.ok (res, ets')) :
    (∀ mid, (∃ s ∈ references, s.module_id = mid) →
      res.unused_imports.get mid = none)
    ∧ (∀ mid r, imported_modules.get mid = some r →
        (∀ s ∈ references, s.module_id ≠ mid) →
        res.unused_imports.get mid = some r) := by
  have hu := pre_constrain_loop_unused home stdlib ba references _
    exposed_types res ets' h
  constructor
  · intro mid hmid
    rw [hu]
    exact fold_remove_referenced references imported_modules mid hmid
  · intro mid r hr hno
    rw [hu, fold_remove_unreferenced references imported_modules mid hno]
    exact hr

/-- A candidate imported-modules fixture holding m2 and m3. -/
def im0 : MutMap ModuleId Region := ⟨[(m2, 5), (m3, 6)]⟩

/-- The result of resolving [s2] against ets_invalid starting from im0. -/
def res_invalid : ConstrainableImports :=
  ⟨[Import.mk ⟨Region.zero, s2⟩ (SolvedType.Erroneous Problem.InvalidModule)],
    [], MutMap.empty, ⟨[(m3, 6)]⟩⟩

/-- Witness for claim C9 at a concrete run. -/
theorem pre_constrain_imports_reads_only_witness : ets_invalid = ets_invalid :=
  pre_constrain_imports_reads_only home0 [s2] im0 ets_invalid stdlib0 []
    res_invalid ets_invalid rfl

/-- Witness for claim C7 at a concrete run: the referenced module m2 is gone
from the unused set, the unreferenced module m3 keeps its region. -/
theorem pre_constrain_imports_unused_witness :
    res_invalid.unused_imports.get m2 = none ∧
    res_invalid.unused_imports.get m3 = some 6 :=
  ⟨(pre_constrain_imports_unused home0 [s2] im0 ets_invalid stdlib0 []
      res_invalid ets_invalid rfl).1 m2 ⟨s2, by simp, rfl⟩,
   (pre_constrain_imports_unused home0 [s2] im0 ets_invalid stdlib0 []
      res_invalid ets_invalid rfl).2 m3 6 rfl (by decide)⟩

/-- The entries after folding inserts are the inserted list reversed in front
of the original entries. -/
theorem foldl_insert_entries [DecidableEq κ] (l : List (κ × ν)) (m : MutMap κ ν) :
    (l.foldl (fun acc p => acc.insert p.1 p.2) m).entries = l.reverse ++ m.entries := by
  induction l generalizing m with
  | nil => simp
  | cons p rest ih =>
      rw [List.foldl_cons, ih, List.reverse_cons, List.append_assoc]
      simp [MutMap.insert]

/-- On a list with no duplicate keys, reversal does not change which binding
a key lookup finds. -/
theorem find_reverse_nodup_keys [DecidableEq κ] (l : List (κ × ν)) (k : κ)
    (hnd : (l.map Prod.fst).Nodup) :
    l.reverse.find? (fun p => decide (p.1 = k)) =
      l.find? (fun p => decide (p.1 = k)) := by
  induction l with
  | nil => rfl
  | cons p rest ih =>
      simp only [List.map_cons, List.nodup_cons] at hnd
      obtain ⟨hp, hrest⟩ := hnd
      rw [List.reverse_cons, List.find?_append]
      by_cases hk : p.1 = k
      · have hnone : rest.reverse.find? (fun q => decide (q.1 = k)) = none := by
          rw [List.find?_eq_none]
          intro x hx
          simp only [List.mem_reverse] at hx
          simp only [decide_eq_true_eq]
          intro hxk
          exact hp (List.mem_map.mpr ⟨x, hx, by rw [hxk, hk]⟩)
        rw [hnone, Option.none_or, List.find?_cons_of_pos _ (by simp [hk])]
        simp [List.find?_cons, hk]
      · have h1 : [p].find? (fun q => decide (q.1 = k)) = none := by
          simp [List.find?_cons, hk]
        rw [h1, Option.or_none, ih hrest, List.find?_cons_of_neg _ (by simp [hk])]

/-- Inserting all entries of a duplicate-key-free map binds each of its keys
to that map's value, overriding any older binding (last writer wins). -/
theorem MutMap.get_insertAll_of_mem [DecidableEq κ] (m new : MutMap κ ν)
    (k : κ) (v : ν) (hget : new.get k = some v)
    (hnd : (new.entries.map Prod.fst).Nodup) :
    (m.insertAll new).get k = some v := by
  have hent : (m.insertAll new).entries = new.entries.reverse ++ m.entries :=
    foldl_insert_entries new.entries m
  simp only [MutMap.get, hent, List.find?_append]
  simp only [MutMap.get] at hget
  obtain ⟨p, hp, hpv⟩ : ∃ p, new.entries.find? (fun q => decide (q.1 = k)) = some p
      ∧ p.2 = v := by
    cases hfe : new.entries.find? (fun q => decide (q.1 = k)) with
    | none => rw [hfe] at hget; cases hget
    | some p =>
        rw [hfe] at hget
        exact ⟨p, rfl, Option.some.inj hget⟩
  rw [find_reverse_nodup_keys new.entries k hnd, hp]
  simp [hpv]

/-- Unfolding one successful loop iteration. -/
theorem pre_constrain_loop_cons_ok (home : ModuleId) (stdlib : StdLib)
    (ba : List Symbol) (acc : ConstrainableImports × SubsByModule) (s : Symbol)
    (rest : List Symbol) (next : ConstrainableImports × SubsByModule)
    (h : pre_constrain_step home stdlib ba acc s = Except.ok next) :
    pre_constrain_loop home stdlib ba (s :: rest) acc =
      pre_constrain_loop home stdlib ba rest next := by
  simp only [pre_constrain_loop, h]

/-- An ok loop iteration changes the merged alias map only when the symbol
resolves through a Valid entry with a recorded solved type, and then by
inserting all of that module's exported aliases. -/
theorem pre_constrain_step_alias_merge_only (home : ModuleId) (stdlib : StdLib)
    (ba : List Symbol) (st : ConstrainableImports) (ets : SubsByModule)
    (symbol : Symbol) (st' : ConstrainableImports) (ets' : SubsByModule)
    (h : pre_constrain_step home stdlib ba (st, ets) symbol = Except.ok (st', ets'))
    (hne : st'.imported_aliases ≠ st.imported_aliases) :
    ∃ sts als sv ss t,
      ets.get symbol.module_id = some (ExposedModuleTypes.Valid sts als sv ss) ∧
      sts.get symbol = some t ∧
      st'.imported_aliases = st.imported_aliases.insertAll als := by
  simp only [pre_constrain_step] at h
  repeat' split at h
  all_goals
    first
      | exact Except.noConfusion h
      | (rw [Except.ok.injEq] at h
         injection h with h1 h2
         subst h1
         first
           | exact absurd rfl hne
           | exact ⟨_, _, _, _, _, by assumption, by assumption, rfl⟩)

/-- Claim C8: when two referenced symbols resolve through Valid entries whose
alias maps both bind the same alias symbol, the merged alias map of the run
binds it to the later module's alias (unconditional overwrite, last writer
wins); and the alias map is only ever merged for a module in which the
referenced symbol has a recorded solved type. -/
theorem pre_constrain_imports_alias_last_writer (home : ModuleId)
    (im : MutMap ModuleId Region) (ets : SubsByModule) (stdlib : StdLib)
    (ba : List Symbol) (x1 x2 : Symbol)
    (sts1 : MutMap Symbol SolvedType) (als1 : MutMap Symbol Alias)
    (sv1 : List (Symbol × Variable)) (ss1 : StorageSubs) (t1 : SolvedType)
    (p1 : Symbol × Variable)
    (sts2 : MutMap Symbol SolvedType) (als2 : MutMap Symbol Alias)
    (sv2 : List (Symbol × Variable)) (ss2 : StorageSubs) (t2 : SolvedType)
    (p2 : Symbol × Variable)
    (h1b : x1.module_id.is_builtin = false) (h1h : x1.module_id ≠ home)
    (h1val : ets.get x1.module_id = some (ExposedModuleTypes.Valid sts1 als1 sv1 ss1))
    (h1st : sts1.get x1 = some t1)
    (h1find : sv1.find? (fun q => decide (q.1 = x1)) = some p1)
    (h2b : x2.module_id.is_builtin = false) (h2h : x2.module_id ≠ home)
    (h2val : ets.get x2.module_id = some (ExposedModuleTypes.Valid sts2 als2 sv2 ss2))
    (h2st : sts2.get x2 = some t2)
    (h2find : sv2.find? (fun q => decide (q.1 = x2)) = some p2)
    (res : ConstrainableImports) (ets' : SubsByModule)
    (hrun : pre_constrain_imports home [x1, x2] im ets stdlib ba =
      Except.ok (res, ets'))
    (k : Symbol) (v : Alias) (hk : als2.get k = some v)
    (hnd : (als2.entries.map Prod.fst).Nodup) :
    res.imported_aliases.get k = some v
    ∧ (∀ st sym st' e',
        pre_constrain_step home stdlib ba (st, ets) sym = Except.ok (st', e') →
        st'.imported_aliases ≠ st.imported_aliases →
        ∃ sts als sv ss t,
          ets.get sym.module_id = some (ExposedModuleTypes.Valid sts als sv ss) ∧
          sts.get sym = some t ∧
          st'.imported_aliases = st.imported_aliases.insertAll als) := by
  constructor
  · simp only [pre_constrain_imports] at hrun
    rw [pre_constrain_loop_cons_ok home stdlib ba _ x1 [x2] _
      (pre_constrain_step_valid_found home stdlib ba _ ets x1 sts1 als1 sv1
        ss1 t1 p1 h1b h1h h1val h1st h1find)] at hrun
    rw [pre_constrain_loop_cons_ok home stdlib ba _ x2 [] _
      (pre_constrain_step_valid_found home stdlib ba _ ets x2 sts2 als2 sv2
        ss2 t2 p2 h2b h2h h2val h2st h2find)] at hrun
    simp only [pre_constrain_loop] at hrun
    rw [Except.ok.injEq] at hrun
    injection hrun with hres hets
    rw [← hres]
    exact MutMap.get_insertAll_of_mem _ als2 k v hk hnd
  · intro st sym st' e' h hne
    exact pre_constrain_step_alias_merge_only home stdlib ba st ets sym st' e'
      h hne

/-- A fixture module id for a second alias-exporting module. -/
def m4 : ModuleId := ⟨4, false⟩

/-- A fixture symbol owned by m4. -/
def s4 : Symbol := ⟨m4, 0⟩

/-- A fixture alias symbol exported by two different modules. -/
def k0 : Symbol := ⟨home0, 99⟩

/-- An exposed-types fixture where m2 and m4 both export an alias under k0. -/
def ets2 : SubsByModule :=
  ⟨[(m2, ExposedModuleTypes.Valid ⟨[(s2, SolvedType.Other 3)]⟩
      ⟨[(k0, Alias.mk 1)]⟩ [(s2, 9)] ⟨0⟩),
    (m4, ExposedModuleTypes.Valid ⟨[(s4, SolvedType.Other 4)]⟩
      ⟨[(k0, Alias.mk 2)]⟩ [(s4, 10)] ⟨1⟩)]⟩

/-- The result of resolving [s2, s4] against ets2. -/
def res_c8 : ConstrainableImports :=
  ⟨[Import.mk ⟨Region.zero, s2⟩ (SolvedType.Other 3),
    Import.mk ⟨Region.zero, s4⟩ (SolvedType.Other 4)],
   [HackyImport.mk ⟨0⟩ ⟨Region.zero, s2⟩ 9,
    HackyImport.mk ⟨1⟩ ⟨Region.zero, s4⟩ 10],
   ⟨[(k0, Alias.mk 2), (k0, Alias.mk 1)]⟩, MutMap.empty⟩

/-- Witness for claim C8 at a concrete run: the alias exported by the later
module m4 wins. -/
theorem pre_constrain_imports_alias_last_writer_witness :
    res_c8.imported_aliases.get k0 = some (Alias.mk 2) :=
  (pre_constrain_imports_alias_last_writer home0 MutMap.empty ets2 stdlib0 []
    s2 s4 ⟨[(s2, SolvedType.Other 3)]⟩ ⟨[(k0, Alias.mk 1)]⟩ [(s2, 9)] ⟨0⟩
    (SolvedType.Other 3) (s2, 9) ⟨[(s4, SolvedType.Other 4)]⟩
    ⟨[(k0, Alias.mk 2)]⟩ [(s4, 10)] ⟨1⟩ (SolvedType.Other 4) (s4, 10)
    rfl (by decide) rfl rfl rfl rfl (by decide) rfl rfl rfl
    res_c8 ets2 rfl k0 (Alias.mk 2) rfl (by decide)).1

/-- Claim C3: the closure build_effect_forever generates is marked
self-recursive and named by the forever symbol itself; its body wraps an
inner thunk whose let-chain binds thunk2 to a call whose callee is a Var of
exactly the forever symbol, and whose tail expression is the call forcing
that thunk2. -/
theorem build_effect_forever_self_recursive (scope : Scope)
    (effect_symbol : Symbol) (tag : TagName) (vs : VarStore) :
    ∃ (cd inner : ClosureData) (variant ext tagarg : Variable)
      (d1 d2 d3 : Def) (v1 v2 v3 : Variable)
      (fn clo ret arg : Variable) (rfn rclo rret rarg : Variable)
      (w e tv : Variable) (thunk2_symbol effect_arg : Symbol),
      ((build_effect_forever scope effect_symbol tag vs).1.2).loc_expr.value
        = Expr.Closure cd
      ∧ cd.recursive = Recursive.Recursive
      ∧ cd.name = (build_effect_forever scope effect_symbol tag vs).1.1
      ∧ cd.loc_body.value = Expr.Tag variant ext tag
          [(tagarg, Loc.at_zero (Expr.Closure inner))]
      ∧ inner.loc_body.value = Expr.LetNonRec d1 (Loc.at_zero (Expr.LetNonRec d2
          (Loc.at_zero (Expr.LetNonRec d3
            (Loc.at_zero (Expr.Call
              (fn, Loc.at_zero (Expr.Var thunk2_symbol), clo, ret)
              [(arg, Loc.at_zero Expr.EmptyRecord)] CalledVia.Space)) v3)) v2)) v1
      ∧ d3.loc_pattern.value = Pattern.AppliedTag w e tag
          [(tv, Loc.at_zero (Pattern.Identifier thunk2_symbol))]
      ∧ d3.loc_expr.value = Expr.Call
          (rfn, Loc.at_zero
            (Expr.Var (build_effect_forever scope effect_symbol tag vs).1.1),
            rclo, rret)
          [(rarg, Loc.at_zero (Expr.Var effect_arg))] CalledVia.Space
      ∧ tail_expr inner.loc_body.value =
          Expr.Call (fn, Loc.at_zero (Expr.Var thunk2_symbol), clo, ret)
            [(arg, Loc.at_zero Expr.EmptyRecord)] CalledVia.Space :=
  ⟨_, _, _, _, _, _, _, _, _, _, _, _, _, _, _, _, _, _, _, _, _, _, _, _,
    rfl, rfl, rfl, rfl, rfl, rfl, rfl, rfl⟩

/-- The three collections of the host-closure argument loop all have exactly
one entry per declared argument. -/
theorem host_closure_args_lengths (ident : String) :
    ∀ (n i : Nat) (scope : Scope) (vs : VarStore),
      (host_closure_args ident i n scope vs).1.1.length = n
      ∧ (host_closure_args ident i n scope vs).1.2.1.length = n
      ∧ (host_closure_args ident i n scope vs).1.2.2.length = n := by
  intro n
  induction n with
  | zero => intro i scope vs; exact ⟨rfl, rfl, rfl⟩
  | succ m ih =>
      intro i scope vs
      simp only [host_closure_args, List.length_cons]
      refine ⟨?_, ?_, ?_⟩ <;> simp [ih]

/-- Claim C4: for an annotation dealiasing to an arity-N function type, the
synthesized body is a closure over exactly N argument patterns, named by the
def's symbol, wrapping (through the effect tag) a thunk whose body is a
foreign call to roc_fx_ident with exactly N arguments; for a non-function
annotation the body is the bare effect tag (no argument closure) around a
thunk whose foreign call has zero arguments. -/
theorem build_host_exposed_def_shape (scope : Scope) (symbol : Symbol)
    (ident : String) (tag : TagName) (vs : VarStore) (annot : CanAnnot) :
    (∀ args clo ret, shallow_dealias annot.typ = Typ.Function args clo ret →
      ∃ (cd inner : ClosureData) (variant ext tagarg rv : Variable)
        (fargs : List (Variable × Expr)),
        (build_host_exposed_def scope symbol ident tag vs annot).1.loc_expr.value
          = Expr.Closure cd
        ∧ cd.name = symbol
        ∧ cd.arguments.length = args.length
        ∧ cd.loc_body.value = Expr.Tag variant ext tag
            [(tagarg, Loc.at_zero (Expr.Closure inner))]
        ∧ inner.loc_body.value = Expr.ForeignCall ("roc_fx_" ++ ident) fargs rv
        ∧ fargs.length = args.length)
    ∧ ((∀ args clo ret, shallow_dealias annot.typ ≠ Typ.Function args clo ret) →
        ∃ (inner : ClosureData) (variant ext tagarg rv : Variable),
          (build_host_exposed_def scope symbol ident tag vs annot).1.loc_expr.value
            = Expr.Tag variant ext tag [(tagarg, Loc.at_zero (Expr.Closure inner))]
          ∧ inner.loc_body.value = Expr.ForeignCall ("roc_fx_" ++ ident) [] rv) := by
  constructor
  · intro args clo ret h
    simp only [build_host_exposed_def, h]
    refine ⟨_, _, _, _, _, _, _, rfl, rfl, ?_, rfl, rfl, ?_⟩
    · exact (host_closure_args_lengths ident args.length 0 scope ⟨vs.next + 1⟩).1
    · exact (host_closure_args_lengths ident args.length 0 scope ⟨vs.next + 1⟩).2.1
  · intro h
    cases ht : shallow_dealias annot.typ with
    | Function args clo ret => exact absurd ht (h args clo ret)
    | Variable v =>
        simp only [build_host_exposed_def, ht]
        exact ⟨_, _, _, _, _, rfl, rfl⟩
    | Alias a b c d =>
        simp only [build_host_exposed_def, ht]
        exact ⟨_, _, _, _, _, rfl, rfl⟩
    | TagUnion a b =>
        simp only [build_host_exposed_def, ht]
        exact ⟨_, _, _, _, _, rfl, rfl⟩
    | EmptyRec =>
        simp only [build_host_exposed_def, ht]
        exact ⟨_, _, _, _, _, rfl, rfl⟩
    | EmptyTagUnion =>
        simp only [build_host_exposed_def, ht]
        exact ⟨_, _, _, _, _, rfl, rfl⟩

/-- A fixture scope for the synthesizer. -/
def scope0 : Scope := ⟨home0, 0⟩

/-- A fixture annotation dealiasing to a two-argument function type. -/
def annot_fn : CanAnnot :=
  ⟨Typ.Function [Typ.EmptyRec, Typ.EmptyRec] Typ.EmptyRec Typ.EmptyRec,
    IntroducedVariables.default, []⟩

/-- A fixture annotation whose type is not a function. -/
def annot_val : CanAnnot := ⟨Typ.EmptyRec, IntroducedVariables.default, []⟩

/-- Witness for claim C4: both the arity-2 function case and the
non-function case at concrete annotations. -/
theorem build_host_exposed_def_shape_witness :
    (∃ (cd inner : ClosureData) (variant ext tagarg rv : Variable)
      (fargs : List (Variable × Expr)),
      (build_host_exposed_def scope0 s2 "getLine" (TagName.Global "fx") ⟨0⟩
        annot_fn).1.loc_expr.value = Expr.Closure cd
      ∧ cd.name = s2
      ∧ cd.arguments.length = [Typ.EmptyRec, Typ.EmptyRec].length
      ∧ cd.loc_body.value = Expr.Tag variant ext (TagName.Global "fx")
          [(tagarg, Loc.at_zero (Expr.Closure inner))]
      ∧ inner.loc_body.value = Expr.ForeignCall ("roc_fx_" ++ "getLine") fargs rv
      ∧ fargs.length = [Typ.EmptyRec, Typ.EmptyRec].length)
    ∧ (∃ (inner : ClosureData) (variant ext tagarg rv : Variable),
        (build_host_exposed_def scope0 s2 "getLine" (TagName.Global "fx") ⟨0⟩
          annot_val).1.loc_expr.value
          = Expr.Tag variant ext (TagName.Global "fx")
              [(tagarg, Loc.at_zero (Expr.Closure inner))]
        ∧ inner.loc_body.value = Expr.ForeignCall ("roc_fx_" ++ "getLine") [] rv) :=
  ⟨(build_host_exposed_def_shape scope0 s2 "getLine" (TagName.Global "fx") ⟨0⟩
      annot_fn).1 [Typ.EmptyRec, Typ.EmptyRec] Typ.EmptyRec Typ.EmptyRec rfl,
   (build_host_exposed_def_shape scope0 s2 "getLine" (TagName.Global "fx") ⟨0⟩
      annot_val).2 (fun args clo ret h => by simp [shallow_dealias, annot_val] at h)⟩

end Roc
